import Mathlib

/-!
Verification of the path-confinement, token-authorization and byte-range
streaming core of the personal cloud storage backend (src/backend/main.py,
src/backend/config.py).  Paths are modelled as lists of segments, file
bodies as lists of bytes (Nat), and the HTTP handlers as pure functions
returning `Except` with the numeric HTTP status they would raise.
-/

namespace CloudStorage

/-- A filesystem path, as its list of name segments from the filesystem root. -/
abbrev FsPath := List String

/-- A path segment is plain when it is none of the special names
`""`, `"."`, `".."` that path resolution consumes. -/
def plainSeg (s : String) : Bool :=
  s != "" && s != "." && s != ".."

/-- Split a character list at every character satisfying the given test,
keeping empty pieces (they are filtered by the callers, as the Python code
filters falsy segments).  Structural so that the kernel can evaluate it. -/
def splitCharsOn (test : Char → Bool) : List Char → List Char → List String
  | [], cur => [String.mk cur.reverse]
  | c :: rest, cur =>
    if test c then String.mk cur.reverse :: splitCharsOn test rest []
    else splitCharsOn test rest (c :: cur)

/-- Model of splitting a user path on separator runs, accepting both `/` and
`\`, dropping empty and `"."` segments — the
`[p for p in re.split(r'[\\/]+', user_path) if p and p != '.']` step of
`safe_path_join` (the preceding `lstrip('/\\')` only removes leading
separators, which this split already discards as empty pieces). -/
def splitPath (s : String) : List String :=
  (splitCharsOn (fun c => c == '/' || c == '\\') s.toList []).filter
    (fun p => p != "" && p != ".")

/-- Lexical model of `Path.resolve()` on an absolute path: `""` and `"."`
segments are dropped and `".."` removes the previous segment (at the
filesystem root it is a no-op).  Symlinks are outside the model. -/
def resolveSegs (segs : List String) : FsPath :=
  segs.foldl
    (fun acc s =>
      if s = "" ∨ s = "." then acc
      else if s = ".." then acc.dropLast
      else acc ++ [s]) []

/-- Model of `safe_path_join(base, user_path)` (main.py lines 149-181):
split the user path, join the surviving segments onto `base`, resolve,
then require the result to be `base.resolve()` or a descendant of it via
`Path.relative_to` (a lexical parts-prefix test).  `none` models the
`HTTPException(403, "Access denied")` raise. -/
def safe_path_join (base : FsPath) (user_path : String) : Option FsPath :=
  let full := resolveSegs (base ++ splitPath user_path)
  if (resolveSegs base).isPrefixOf full then some full else none

lemma resolveSegs_go_plain (segs : List String) (acc : FsPath)
    (hacc : ∀ s ∈ acc, plainSeg s = true) :
    ∀ s ∈ segs.foldl
      (fun acc s =>
        if s = "" ∨ s = "." then acc
        else if s = ".." then acc.dropLast
        else acc ++ [s]) acc, plainSeg s = true := by
  induction segs generalizing acc with
  | nil => simpa using hacc
  | cons x xs ih =>
    simp only [List.foldl_cons]
    by_cases h1 : x = "" ∨ x = "."
    · simp only [h1, if_true]
      exact ih acc hacc
    · by_cases h2 : x = ".."
      · simp only [h1, if_false, h2, if_true]
        exact ih acc.dropLast (fun s hs => hacc s (List.dropLast_subset _ hs))
      · simp only [h1, if_false, h2]
        refine ih (acc ++ [x]) ?_
        intro s hs
        rcases List.mem_append.mp hs with h | h
        · exact hacc s h
        · simp only [List.mem_singleton] at h
          subst h
          push_neg at h1
          simp [plainSeg, h1.1, h1.2, h2]

/-- Every segment of a resolved path is plain: resolution never emits
`""`, `"."` or `".."`. -/
lemma resolveSegs_plain (segs : List String) :
    ∀ s ∈ resolveSegs segs, plainSeg s = true :=
  resolveSegs_go_plain segs [] (by simp)

/- ### Byte-range planning (stream_audio lines 586-621, stream_video 765-800) -/

/-- Fold an all-digit character list onto an accumulator; `none` as soon as
a non-digit appears.  Emptiness is checked by the caller. -/
def digitsVal : List Char → Nat → Option Nat
  | [], acc => some acc
  | c :: rest, acc =>
    if c.isDigit then digitsVal rest (acc * 10 + (c.toNat - 48)) else none

/-- Strip leading and trailing whitespace, as Python `int()` tolerates. -/
def trimChars (cs : List Char) : List Char :=
  ((cs.dropWhile Char.isWhitespace).reverse.dropWhile Char.isWhitespace).reverse

/-- Model of Python `int(s)`: optional surrounding whitespace, an optional
sign, then a non-empty digit string; `none` models the `ValueError` raise
(which the endpoints turn into HTTP 500).  Underscore digit separators and
non-ASCII digits, which CPython also accepts, are outside the model; no
claim exercises them. -/
def pyInt (s : String) : Option Int :=
  match trimChars s.toList with
  | [] => none
  | '-' :: rest =>
    if rest = [] then none else (digitsVal rest 0).map (fun n => -(n : Int))
  | '+' :: rest =>
    if rest = [] then none else (digitsVal rest 0).map (fun n => (n : Int))
  | rest => (digitsVal rest 0).map (fun n => (n : Int))

/-- Remove every occurrence of the pattern `bytes=`, as
`range.replace('bytes=', '')` does (non-overlapping, left to right). -/
def stripBytesEq : List Char → List Char
  | 'b' :: 'y' :: 't' :: 'e' :: 's' :: '=' :: rest => stripBytesEq rest
  | c :: rest => c :: stripBytesEq rest
  | [] => []

/-- Outcome of the range-handling block: byte offsets (inclusive) and the
HTTP status of the streaming response. -/
structure RangePlan where
  start : Int
  stop : Int
  status : Nat
deriving DecidableEq, Repr

/-- Model of the range-handling block shared by `stream_audio` and
`stream_video`: with no (or falsy, i.e. empty) `Range` header the plan is
`start=0, end=file_size-1, status 200`; otherwise `bytes=` is stripped, the
rest split on `-`, a non-empty first piece is parsed as `start` (else 0), a
non-empty second piece as `end` (else `file_size-1`), and the status is 206.
`none` models the `ValueError` from `int()` on unparsable text, which the
surrounding handler maps to HTTP 500. -/
def planRange (file_size : Nat) (header : Option String) : Option RangePlan :=
  match header with
  | none => some ⟨0, (file_size : Int) - 1, 200⟩
  | some h =>
    if h = "" then some ⟨0, (file_size : Int) - 1, 200⟩
    else
      let parts := splitCharsOn (fun c => c == '-') (stripBytesEq h.toList) []
      let first := parts.headD ""
      (if first ≠ "" then pyInt first else some 0).bind fun s =>
        (match parts.drop 1 with
          | [] => some ((file_size : Int) - 1)
          | second :: _ =>
            if second ≠ "" then pyInt second else some ((file_size : Int) - 1)).bind
          fun e => some ⟨s, e, 206⟩

/-- Loop body of the `iterfile` generator (main.py lines 595-608 for audio,
774-787 for video): `rest` is the file content from the seek position on,
`remaining = end - start + 1`; each round reads
`min(chunk_size, remaining)` bytes, stops on a short (empty) read, and the
clamped chunk size is carried into the next round exactly as the Python
code reassigns `chunk_size`. -/
def iterAux (rest : List Nat) (remaining : Nat) (chunk_size : Nat) :
    List (List Nat) :=
  if h0 : remaining = 0 then []
  else if hd : rest.take (min chunk_size remaining) = [] then []
  else
    rest.take (min chunk_size remaining)
      :: iterAux (rest.drop (min chunk_size remaining))
        (remaining - (rest.take (min chunk_size remaining)).length)
        (min chunk_size remaining)
termination_by remaining
decreasing_by
  have hpos : 0 < (rest.take (min chunk_size remaining)).length :=
    List.length_pos.mpr hd
  omega

/-- The `iterfile` generator: seek to `start`, then emit chunks until
`end - start + 1` bytes have been produced or the file is exhausted.  The
`while remaining > 0` test on the possibly negative Python value is the
`Int.toNat` clamp. -/
def iterfile (file : List Nat) (start : Nat) (stop : Int) (chunk_size : Nat) :
    List (List Nat) :=
  iterAux (file.drop start) ((stop - (start : Int) + 1).toNat) chunk_size

/-- The response headers built by the streaming endpoints from the plan. -/
def stream_headers (p : RangePlan) (file_size : Nat) : List (String × String) :=
  [("Content-Range", "bytes " ++ toString p.start ++ "-" ++ toString p.stop
      ++ "/" ++ toString file_size),
   ("Accept-Ranges", "bytes"),
   ("Content-Length", toString (p.stop - p.start + 1))]

/- ### Settings (config.py lines 12-33), the upload size cap
(upload_file lines 664-715) and folder creation (create_folder 629-661) -/

/-- The `Settings` class of config.py: exactly these attributes and no
others.  In particular there is no `UPLOAD_MAX_BYTES`. -/
structure Settings where
  root_directory : String
  port : Nat
  host : String
  access_password : String
  jwt_secret_key : String
  jwt_algorithm : String
  jwt_expiration_hours : Nat
  frontend_url : String
deriving Repr

/-- Numeric attribute lookup on a `Settings` instance, as Python `getattr`
resolves it over the class body of config.py; a name the class does not
bind — in particular the `UPLOAD_MAX_BYTES` that `upload_file` reads —
raises `AttributeError`, modelled as `none`. -/
def settings_getattr_nat (s : Settings) (attr : String) : Option Nat :=
  if attr = "PORT" then some s.port
  else if attr = "JWT_EXPIRATION_HOURS" then some s.jwt_expiration_hours
  else none

/-- The settings config.py builds when no environment variable overrides
a default. -/
def default_settings : Settings :=
  ⟨"./files", 8000, "0.0.0.0", "changeme",
    "dev-secret-key-please-change-in-production", "HS256", 24,
    "http://49.232.185.68:3000"⟩

/-- The write loop of `upload_file` (main.py lines 698-709): chunks of the
body are appended to the destination file while a running total is kept;
as soon as the total exceeds `max_bytes` the partial file is removed
(`os.remove`) and 413 is raised — the oversized chunk itself is counted
before being written, so it never reaches the disk.  Result: the file
present at the destination after the call (`none` = no file) and the
outcome. -/
def upload_write : Nat → List (List Nat) → Nat → List Nat →
    Option (List Nat) × Except Nat Nat
  | _, [], written, buf => (some buf, .ok written)
  | max_bytes, c :: rest, written, buf =>
    if c = [] then (some buf, .ok written)
    else if written + c.length > max_bytes then (none, .error 413)
    else upload_write max_bytes rest (written + c.length) (buf ++ c)

/-- The size-capped part of the `upload_file` handler: it first evaluates
`settings.UPLOAD_MAX_BYTES` (line 697) — when the attribute is missing the
`AttributeError` is caught by the blanket handler and becomes HTTP 500,
before the destination file is even opened — and only then streams the
body to disk through `upload_write`. -/
def upload_file_body (max_bytes : Option Nat) (chunks : List (List Nat)) :
    Option (List Nat) × Except Nat Nat :=
  match max_bytes with
  | none => (none, .error 500)
  | some m => upload_write m chunks 0 []

/-- The folder-name rejection test of `create_folder` (main.py line 642):
empty, containing a separator, or a dot name. -/
def invalid_name (name : String) : Bool :=
  name == "" || name.toList.any (fun c => c == '/')
    || name.toList.any (fun c => c == '\\') || name == ".." || name == "."

/-- Model of the `create_folder` handler (main.py lines 629-661) over a
filesystem modelled as the list of existing paths: reject bad names before
anything else; confine the parent with `safe_path_join` (403); resolve the
would-be directory and re-check confinement (403); 409 when it already
exists; `mkdir(parents=False, exist_ok=False)` creates exactly one
directory and raises (blanket 500) when the parent directory does not
exist.  Returns the filesystem after the call together with the outcome. -/
def create_folder (fs : List FsPath) (root : FsPath) (parent : String)
    (name : String) : List FsPath × Except Nat FsPath :=
  if invalid_name name then (fs, .error 400)
  else
    match safe_path_join root parent with
    | none => (fs, .error 403)
    | some dest_path =>
      let new_dir := resolveSegs (dest_path ++ [name])
      if (resolveSegs root).isPrefixOf new_dir then
        if new_dir ∈ fs then (fs, .error 409)
        else if new_dir.dropLast ∈ fs then (fs ++ [new_dir], .ok new_dir)
        else (fs, .error 500)
      else (fs, .error 403)

/- ### Tokens and authorization (verify_jwt_token lines 92-118,
create_stream_token 521-534, the access blocks of stream_audio 559-573 and
stream_video 739-752) -/

/-- The claim payload of a token.  Absent dictionary keys are the falsy
defaults, matching `payload.get('authenticated')` / `payload.get('stream')`
/ `payload.get('path')` on the claim dictionaries the code builds
(`{authenticated: True}` for session tokens, `{stream: True, path: p}` for
stream tokens). -/
structure Claims where
  authenticated : Bool := false
  stream : Bool := false
  path : Option String := none
deriving DecidableEq, Repr

/-- Modelled from the spec: `auth.create_access_token` (imported by main.py
from an `auth` module that is not among the source files) signs the claims
plus `expiresAt = issuedAt + ttl` with the process-wide secret. -/
structure Token where
  claims : Claims
  expiresAt : Nat
  signedWith : String
deriving DecidableEq, Repr

/-- Modelled from the spec: `auth.create_access_token(data, expires_delta)`
issues a token over the given claims expiring `ttl` seconds from `now`. -/
def create_access_token (secret : String) (now : Nat) (data : Claims)
    (ttl : Nat) : Token :=
  ⟨data, now + ttl, secret⟩

/-- Modelled from the spec: `auth.verify_token` checks the signature and
then `now < expiresAt`; any signature mismatch or expiry yields `Invalid`
(`None`), with no partial trust — the claims themselves are not examined. -/
def verify_token (secret : String) (now : Nat) (t : Token) : Option Claims :=
  if t.signedWith = secret ∧ now < t.expiresAt then some t.claims else none

/-- Model of `verify_jwt_token` (main.py lines 92-118): take the token from
the `Authorization: Bearer` header first, else the `token` query parameter,
else `access_token`; 401 when absent or when `verify_token` rejects;
otherwise return the verified payload as is.  No claim inside the payload
is inspected. -/
def verify_jwt_token (secret : String) (now : Nat)
    (header_tok query_tok access_tok : Option Token) : Except Nat Claims :=
  match header_tok.orElse (fun _ => query_tok.orElse fun _ => access_tok) with
  | none => .error 401
  | some t =>
    match verify_token secret now t with
    | none => .error 401
    | some payload => .ok payload

/-- Model of `create_stream_token` (main.py lines 521-534): guarded by
`verify_jwt_token`; on success mints a 60-second token with claims
`{stream: True, path: path}` and reports `expires_in = 60`. -/
def create_stream_token (secret : String) (now : Nat)
    (header_tok query_tok access_tok : Option Token) (path : String) :
    Except Nat (Token × Nat) :=
  match verify_jwt_token secret now header_tok query_tok access_tok with
  | .error e => .error e
  | .ok _ =>
    .ok (create_access_token secret now ⟨false, true, some path⟩ 60, 60)

/-- Model of the access-validation block shared by `stream_audio` (lines
559-573) and `stream_video` (739-752): if a `token` query parameter is
present, verify it (401 on failure); when its payload has a truthy `stream`
claim, require `path` equality (403 on mismatch) — any other valid payload
passes.  Only when no `token` query parameter is present does the endpoint
fall back to `verify_jwt_token` on the request (Authorization header or
`access_token` query parameter). -/
def stream_access (secret : String) (now : Nat) (path : String)
    (query_tok : Option Token) (header_tok access_tok : Option Token) :
    Except Nat Unit :=
  match query_tok with
  | some t =>
    match verify_token secret now t with
    | none => .error 401
    | some payload =>
      if payload.stream then
        if payload.path = some path then .ok () else .error 403
      else .ok ()
  | none =>
    match verify_jwt_token secret now header_tok none access_tok with
    | .error e => .error e
    | .ok _ => .ok ()

end CloudStorage

namespace CloudStorage

/-- C1: whenever `safe_path_join` returns a path (instead of raising the
403 `AccessDenied`), that path is the canonical root or a descendant of it,
and is itself canonical (no residual `..`, `.` or empty segments) — for
every user-supplied path string, including ones with `..`, absolute
prefixes, or mixed `/` and `\` separators. -/
theorem safe_path_join_confined (base : FsPath) (user_path : String) (p : FsPath)
    (h : safe_path_join base user_path = some p) :
    resolveSegs base <+: p ∧ ∀ s ∈ p, plainSeg s = true := by
  unfold safe_path_join at h
  simp only [] at h
  split at h
  next hpre =>
    cases h
    exact ⟨List.isPrefixOf_iff_prefix.mp hpre, resolveSegs_plain _⟩
  next => cases h

/-- Witness for C1 at a concrete accepted input: a user path mixing a `..`
segment and a doubled separator resolves to a descendant of the root. -/
theorem safe_path_join_confined_witness :
    safe_path_join ["srv", "files"] "music/../video//clip.mp4"
        = some ["srv", "files", "video", "clip.mp4"]
      ∧ (resolveSegs ["srv", "files"] <+: ["srv", "files", "video", "clip.mp4"]
        ∧ ∀ s ∈ ["srv", "files", "video", "clip.mp4"], plainSeg s = true) :=
  ⟨by decide,
    safe_path_join_confined ["srv", "files"] "music/../video//clip.mp4" _ (by decide)⟩

/-- C7: the concrete planning examples.  `bytes=100-199` on a 1000-byte file
gives start 100, end 199, status 206 and `Content-Length: 100`; no header
gives start 0, end 999, status 200; in both cases the headers are
`Content-Range: bytes start-end/fileSize`, `Accept-Ranges: bytes` and
`Content-Length: end-start+1`. -/
theorem planRange_concrete_examples :
    planRange 1000 (some "bytes=100-199") = some ⟨100, 199, 206⟩
      ∧ stream_headers ⟨100, 199, 206⟩ 1000 =
          [("Content-Range", "bytes 100-199/1000"), ("Accept-Ranges", "bytes"),
            ("Content-Length", "100")]
      ∧ planRange 1000 none = some ⟨0, 999, 200⟩
      ∧ stream_headers ⟨0, 999, 200⟩ 1000 =
          [("Content-Range", "bytes 0-999/1000"), ("Accept-Ranges", "bytes"),
            ("Content-Length", "1000")] := by
  refine ⟨by decide, by decide, by decide, by decide⟩

/-- Counterexample for C4: a `Range` header with unparsable numeric text
does make the streaming request fail — `int('abc')` raises, the handler
maps the exception to HTTP 500, and no plan with defaulted bounds is
produced. -/
theorem planRange_unparsable_raises :
    planRange 1000 (some "bytes=abc-def") = none := by decide

/-- C4 as amended: only an *empty* bound falls back to its default
(start 0, end fileSize-1); a non-empty unparsable bound such as in
`bytes=abc-def` aborts the whole request with HTTP 500 instead of being
replaced by its default. -/
theorem planRange_empty_bounds_defaulted (file_size : Nat) :
    planRange file_size (some "bytes=-") = some ⟨0, (file_size : Int) - 1, 206⟩
      ∧ planRange file_size (some "bytes=100-") = some ⟨100, (file_size : Int) - 1, 206⟩
      ∧ planRange file_size (some "bytes=abc-def") = none :=
  ⟨rfl, rfl, rfl⟩

/-- Counterexample for C5: `bytes=5000-` against a 1000-byte file is
accepted with start 5000 and end 999, so `start ≤ end` and
`start < fileSize` both fail — the derived range is not clamped to the
file extent. -/
theorem planRange_no_clamping :
    planRange 1000 (some "bytes=5000-") = some ⟨5000, 999, 206⟩
      ∧ ¬((5000 : Int) ≤ 999) ∧ ¬((5000 : Int) < 1000) := by decide

/-- C5 as amended: the invariant `0 ≤ start ≤ end < fileSize` holds for the
default plan (no `Range` header) on a non-empty file, but header-supplied
bounds are used without any validation against the file extent. -/
theorem planRange_default_range_invariant (file_size : Nat) (h : 0 < file_size) :
    ∃ p, planRange file_size none = some p
      ∧ 0 ≤ p.start ∧ p.start ≤ p.stop ∧ p.stop < (file_size : Int) := by
  refine ⟨⟨0, (file_size : Int) - 1, 200⟩, rfl, le_refl 0, ?_, ?_⟩
  · show (0 : Int) ≤ (file_size : Int) - 1
    omega
  · show (file_size : Int) - 1 < (file_size : Int)
    omega

/-- Witness for the amended C5 at `fileSize = 1000`. -/
theorem planRange_default_range_invariant_witness :
    (0 : Nat) < 1000
      ∧ ∃ p, planRange 1000 none = some p
          ∧ 0 ≤ p.start ∧ p.start ≤ p.stop ∧ p.stop < (1000 : Int) :=
  ⟨by decide, planRange_default_range_invariant 1000 (by decide)⟩

lemma iterAux_flatten : ∀ (n : Nat) (rest : List Nat) (cs : Nat),
    rest.length = n → 0 < cs → (iterAux rest n cs).flatten = rest := by
  intro n
  induction n using Nat.strong_induction_on with
  | _ n ih =>
    intro rest cs hlen hcs
    rw [iterAux]
    by_cases h0 : n = 0
    · have : rest = [] := List.length_eq_zero.mp (h0 ▸ hlen)
      simp [h0, this]
    · rw [dif_neg h0]
      have hcspos : 0 < min cs n := lt_min hcs (Nat.pos_of_ne_zero h0)
      have hd : rest.take (min cs n) ≠ [] := by
        intro h
        have := congrArg List.length h
        simp only [List.length_take, hlen, List.length_nil] at this
        omega
      rw [dif_neg hd]
      have hlen_take : (rest.take (min cs n)).length = min cs n := by
        simp only [List.length_take, hlen]
        omega
      have hdrop : (rest.drop (min cs n)).length = n - min cs n := by
        simp [List.length_drop, hlen]
      rw [List.flatten_cons, hlen_take,
        ih (n - min cs n) (by omega) (rest.drop (min cs n)) (min cs n)
          hdrop hcspos]
      exact List.take_append_drop _ rest

lemma iterAux_sum_le : ∀ (rem : Nat) (rest : List Nat) (cs : Nat),
    ((iterAux rest rem cs).map List.length).sum ≤ rem := by
  intro rem
  induction rem using Nat.strong_induction_on with
  | _ rem ih =>
    intro rest cs
    rw [iterAux]
    by_cases h0 : rem = 0
    · simp [h0]
    · rw [dif_neg h0]
      by_cases hd : rest.take (min cs rem) = []
      · simp [hd]
      · rw [dif_neg hd]
        simp only [List.map_cons, List.sum_cons]
        have h1 : (rest.take (min cs rem)).length ≤ min cs rem := by
          simp [List.length_take]
        have h2 : 0 < (rest.take (min cs rem)).length := List.length_pos.mpr hd
        have h3 := ih (rem - (rest.take (min cs rem)).length)
          (by omega) (rest.drop (min cs rem)) (min cs rem)
        have h4 : min cs rem ≤ rem := Nat.min_le_right cs rem
        omega

lemma sum_take_le_sum (l : List Nat) : ∀ n, (l.take n).sum ≤ l.sum := by
  induction l with
  | nil => simp
  | cons x xs ih =>
    intro n
    cases n with
    | zero => simp
    | succ n =>
      simp only [List.take_succ_cons, List.sum_cons]
      exact Nat.add_le_add_left (ih n) x

/-- C8: for the range `bytes=0-` (start 0, end fileSize-1) the plan is
accepted, the concatenation of the emitted chunks equals the whole file,
and each emitted chunk is no longer than the bytes still remaining in the
range at the moment it is emitted. -/
theorem iterfile_roundtrip (file : List Nat) (cs : Nat) (hcs : 0 < cs) :
    planRange file.length (some "bytes=0-")
        = some ⟨0, (file.length : Int) - 1, 206⟩
      ∧ (iterfile file 0 ((file.length : Int) - 1) cs).flatten = file
      ∧ ∀ i, i < (iterfile file 0 ((file.length : Int) - 1) cs).length →
          ((iterfile file 0 ((file.length : Int) - 1) cs).getD i []).length
            ≤ file.length
              - (((iterfile file 0 ((file.length : Int) - 1) cs).take i).map
                  List.length).sum := by
  have hto : (((file.length : Int) - 1) - ((0 : Nat) : Int) + 1).toNat
      = file.length := by omega
  have hfile : iterfile file 0 ((file.length : Int) - 1) cs
      = iterAux file file.length cs := by
    unfold iterfile
    rw [hto, List.drop_zero]
  refine ⟨rfl, ?_, ?_⟩
  · rw [hfile]
    exact iterAux_flatten file.length file cs rfl hcs
  · intro i hi
    rw [hfile] at hi ⊢
    set chunks := iterAux file file.length cs with hchunks
    have hsum : ((chunks.map List.length).sum) ≤ file.length :=
      iterAux_sum_le file.length file cs
    have hi' : i < (chunks.map List.length).length := by
      simpa using hi
    have hstep : ((chunks.map List.length).take (i + 1)).sum
        = ((chunks.map List.length).take i).sum + (chunks.map List.length)[i] :=
      List.sum_take_succ _ i hi'
    have htle : ((chunks.map List.length).take (i + 1)).sum
        ≤ (chunks.map List.length).sum := sum_take_le_sum _ _
    have hgetD : chunks.getD i [] = chunks[i] := by
      simp [List.getD_eq_getElem?_getD, List.getElem?_eq_getElem hi]
    have hget : (chunks.map List.length)[i] = chunks[i].length := by
      simp [List.getElem_map]
    have hmt : (chunks.take i).map List.length
        = (chunks.map List.length).take i := List.map_take _ _ _
    rw [hmt, hgetD]
    omega

/-- Witness for C8 with a three-byte file and the audio chunk size. -/
theorem iterfile_roundtrip_witness :
    (0 : Nat) < 64 * 1024
      ∧ (iterfile [7, 8, 9] 0 ((([7, 8, 9] : List Nat).length : Int) - 1)
          (64 * 1024)).flatten = [7, 8, 9] :=
  ⟨by decide, (iterfile_roundtrip [7, 8, 9] (64 * 1024) (by decide)).2.1⟩

/-- C10: `verify_jwt_token` accepts any token whose signature verifies and
whose expiry has not passed, whatever its claims are — the `authenticated`
and `stream` claims are never examined, so a token with empty claims or a
short-lived stream token passes the guard of every operation that depends
on it (list, download, upload, create-folder, stream-token mint, passkey
management), shown here for the stream-token mint as well. -/
theorem verify_jwt_token_ignores_claims (secret : String) (now : Nat)
    (t : Token) (q a : Option Token) (p : String)
    (hsig : t.signedWith = secret) (hexp : now < t.expiresAt) :
    verify_jwt_token secret now (some t) q a = .ok t.claims
      ∧ (create_stream_token secret now (some t) q a p).isOk = true := by
  have hv : verify_token secret now t = some t.claims := by
    unfold verify_token
    rw [if_pos ⟨hsig, hexp⟩]
  have hj : verify_jwt_token secret now (some t) q a
      = match verify_token secret now t with
        | none => .error 401
        | some payload => .ok payload := rfl
  have h1 : verify_jwt_token secret now (some t) q a = .ok t.claims := by
    rw [hj, hv]
  refine ⟨h1, ?_⟩
  unfold create_stream_token
  rw [h1]
  rfl

/-- Witness for C10: a short-lived stream token, whose claims carry neither
`authenticated` nor anything else a protected operation would want, passes
`verify_jwt_token` and can even mint further stream tokens. -/
theorem verify_jwt_token_ignores_claims_witness :
    (create_access_token "k" 0 ⟨false, true, some "a.mp3"⟩ 60).signedWith = "k"
      ∧ 10 < (create_access_token "k" 0 ⟨false, true, some "a.mp3"⟩ 60).expiresAt
      ∧ verify_jwt_token "k" 10
          (some (create_access_token "k" 0 ⟨false, true, some "a.mp3"⟩ 60))
          none none = .ok ⟨false, true, some "a.mp3"⟩ :=
  ⟨rfl, by decide,
    (verify_jwt_token_ignores_claims "k" 10
      (create_access_token "k" 0 ⟨false, true, some "a.mp3"⟩ 60)
      none none "b.mp3" rfl (by decide)).1⟩

/-- Counterexample for C2: a valid stream token is *not* denied by the
other protected operations — `verify_jwt_token`, the sole guard of list,
download, upload and create-folder, accepts it — and the same stream token
sent in the `Authorization` header (not the `token` query parameter) lets a
stream endpoint serve a *different* path. -/
theorem stream_token_not_confined_cex :
    verify_jwt_token "k" 10
        (some (create_access_token "k" 0 ⟨false, true, some "song.mp3"⟩ 60))
        none none = .ok ⟨false, true, some "song.mp3"⟩
      ∧ stream_access "k" 10 "other.mp3" none
          (some (create_access_token "k" 0 ⟨false, true, some "song.mp3"⟩ 60))
          none = .ok () :=
  ⟨rfl, rfl⟩

/-- C2 as amended: a stream token presented as the `token` query parameter
of a stream endpoint authorizes only the path equal to its `path` claim
(mismatch gives 403, match passes); but the operations guarded by
`verify_jwt_token` (list, download, upload, create-folder, stream-token
mint) do not examine claims and accept a valid stream token, and the
query-parameter restriction does not apply to a stream token sent in the
`Authorization` header. -/
theorem stream_token_scope_amended (secret : String) (now : Nat) (t : Token)
    (p : String) (h a : Option Token)
    (hsig : t.signedWith = secret) (hexp : now < t.expiresAt)
    (hstream : t.claims.stream = true) :
    (t.claims.path ≠ some p → stream_access secret now p (some t) h a = .error 403)
      ∧ (t.claims.path = some p → stream_access secret now p (some t) h a = .ok ())
      ∧ verify_jwt_token secret now (some t) none none = .ok t.claims := by
  have hv : verify_token secret now t = some t.claims := by
    unfold verify_token
    rw [if_pos ⟨hsig, hexp⟩]
  have hs : stream_access secret now p (some t) h a
      = match verify_token secret now t with
        | none => .error 401
        | some payload =>
          if payload.stream then
            if payload.path = some p then .ok () else .error 403
          else .ok () := rfl
  refine ⟨?_, ?_, (verify_jwt_token_ignores_claims secret now t none none p
    hsig hexp).1⟩
  · intro hne
    rw [hs, hv]
    simp [hstream, hne]
  · intro heq
    rw [hs, hv]
    simp [hstream, heq]

/-- Witness for the amended C2: a stream token for `song.mp3` presented as
the query token is rejected with 403 for `other.mp3`. -/
theorem stream_token_scope_amended_witness :
    (create_access_token "k" 0 ⟨false, true, some "song.mp3"⟩ 60).claims.path
        ≠ some "other.mp3"
      ∧ stream_access "k" 10 "other.mp3"
          (some (create_access_token "k" 0 ⟨false, true, some "song.mp3"⟩ 60))
          none none = .error 403 :=
  ⟨by decide,
    (stream_token_scope_amended "k" 10
        (create_access_token "k" 0 ⟨false, true, some "song.mp3"⟩ 60)
        "other.mp3" none none rfl (by decide) rfl).1 (by decide)⟩

/-- Counterexample for C3: a request carrying a mismatched (but valid)
stream token in the query parameter *and* a perfectly valid session token
in the Authorization header is denied with 403 — the endpoint fails fast
instead of falling back to the full session-token check. -/
theorem stream_mismatch_no_fallback_cex :
    verify_token "k" 10 (create_access_token "k" 0 ⟨true, false, none⟩ 3600)
        = some ⟨true, false, none⟩
      ∧ stream_access "k" 10 "a.mp3"
          (some (create_access_token "k" 0 ⟨false, true, some "b.mp3"⟩ 60))
          (some (create_access_token "k" 0 ⟨true, false, none⟩ 3600)) none
        = .error 403 :=
  ⟨rfl, rfl⟩

/-- C3 as amended: when a `token` query parameter is present the endpoint
decides from it alone — invalid gives 401 and a valid stream token with
mismatched path gives 403, in both cases regardless of any session token in
the Authorization header; a valid query token whose `stream` claim is falsy
passes (whether or not it carries `authenticated`); only when the query
token is absent is the full `verify_jwt_token` check attempted as the
authorization decision. -/
theorem stream_access_characterization (secret : String) (now : Nat)
    (path : String) (t : Token) (h a : Option Token) :
    (∀ c, verify_token secret now t = some c → c.stream = true →
        c.path ≠ some path → stream_access secret now path (some t) h a = .error 403)
      ∧ (∀ c, verify_token secret now t = some c → c.stream = false →
          stream_access secret now path (some t) h a = .ok ())
      ∧ (∀ c, verify_token secret now t = some c → c.stream = true →
          c.path = some path → stream_access secret now path (some t) h a = .ok ())
      ∧ (verify_token secret now t = none →
          stream_access secret now path (some t) h a = .error 401)
      ∧ stream_access secret now path none h a
          = (match verify_jwt_token secret now h none a with
              | .error e => .error e
              | .ok _ => .ok ()) := by
  have hs : stream_access secret now path (some t) h a
      = match verify_token secret now t with
        | none => .error 401
        | some payload =>
          if payload.stream then
            if payload.path = some path then .ok () else .error 403
          else .ok () := rfl
  refine ⟨?_, ?_, ?_, ?_, rfl⟩
  · intro c hc hcs hne
    rw [hs, hc]
    simp [hcs, hne]
  · intro c hc hcs
    rw [hs, hc]
    simp [hcs]
  · intro c hc hcs heq
    rw [hs, hc]
    simp [hcs, heq]
  · intro hc
    rw [hs, hc]

/-- Witness for the amended C3: the fail-fast 403 of the counterexample
scenario follows from the characterization. -/
theorem stream_access_characterization_witness :
    stream_access "k" 10 "a.mp3"
        (some (create_access_token "k" 0 ⟨false, true, some "b.mp3"⟩ 60))
        (some (create_access_token "k" 0 ⟨true, false, none⟩ 3600)) none
      = .error 403 :=
  (stream_access_characterization "k" 10 "a.mp3"
      (create_access_token "k" 0 ⟨false, true, some "b.mp3"⟩ 60)
      (some (create_access_token "k" 0 ⟨true, false, none⟩ 3600)) none).1
    ⟨false, true, some "b.mp3"⟩ rfl rfl (by decide)

/-- C6 (code bug): `upload_file` reads `settings.UPLOAD_MAX_BYTES`, but
the `Settings` class of config.py defines no such attribute, so for *every*
`Settings` instance the lookup raises and every upload — oversized or not —
fails with HTTP 500 before the destination file is opened; the 413
size-cap path is unreachable.  The write loop itself, given a cap, does
implement the claimed behaviour: an upload whose cumulative size exceeds
the cap leaves no file at the destination and fails with 413, checked
incrementally (here 5 bytes against a 4-byte cap), while a fitting upload
is stored whole. -/
theorem upload_cap_unreachable (s : Settings) :
    settings_getattr_nat s "UPLOAD_MAX_BYTES" = none
      ∧ upload_file_body (settings_getattr_nat s "UPLOAD_MAX_BYTES")
          [[1, 2, 3]] = (none, .error 500)
      ∧ upload_file_body (settings_getattr_nat default_settings
          "UPLOAD_MAX_BYTES") [[1, 2, 3], [4, 5]] = (none, .error 500)
      ∧ upload_write 4 [[1, 2, 3], [4, 5]] 0 [] = (none, .error 413)
      ∧ upload_write 4 [[1, 2, 3]] 0 [] = (some [1, 2, 3], .ok 3) :=
  ⟨rfl, rfl, rfl, rfl, rfl⟩

/-- C9: `create_folder` rejects an empty, `.`, `..` or separator-containing
name with 400 before any filesystem mutation (the returned filesystem is
the input one); with a valid name and a confined destination it answers 409
when the destination already exists (again without mutation), and otherwise
creates exactly the one new directory, non-recursively — a missing parent
is an error, not a recursive create. -/
theorem create_folder_behaviour (fs : List FsPath) (root : FsPath)
    (parent name : String) (d : FsPath) :
    (invalid_name name = true →
        create_folder fs root parent name = (fs, .error 400))
      ∧ (invalid_name name = false → safe_path_join root parent = some d →
          (resolveSegs root).isPrefixOf (resolveSegs (d ++ [name])) = true →
          resolveSegs (d ++ [name]) ∈ fs →
          create_folder fs root parent name = (fs, .error 409))
      ∧ (invalid_name name = false → safe_path_join root parent = some d →
          (resolveSegs root).isPrefixOf (resolveSegs (d ++ [name])) = true →
          resolveSegs (d ++ [name]) ∉ fs →
          (resolveSegs (d ++ [name])).dropLast ∈ fs →
          create_folder fs root parent name
            = (fs ++ [resolveSegs (d ++ [name])], .ok (resolveSegs (d ++ [name])))) := by
  refine ⟨?_, ?_, ?_⟩
  · intro h
    unfold create_folder
    rw [if_pos h]
  · intro h1 h2 h3 h4
    unfold create_folder
    rw [if_neg (by simp [h1]), h2]
    simp only [h3, if_true, if_pos h4]
  · intro h1 h2 h3 h4 h5
    unfold create_folder
    rw [if_neg (by simp [h1]), h2]
    simp only [h3, if_true, if_neg h4, if_pos h5]

/-- Witness for C9: a folder name containing `/` is rejected with 400 and
the filesystem is untouched. -/
theorem create_folder_behaviour_witness :
    invalid_name "a/b" = true
      ∧ create_folder [["srv", "files"]] ["srv", "files"] "" "a/b"
          = ([["srv", "files"]], .error 400) :=
  ⟨by decide,
    (create_folder_behaviour [["srv", "files"]] ["srv", "files"] "" "a/b" []).1
      (by decide)⟩

end CloudStorage
